import Mathlib

/-!
Verification of the cpc-nvm3 host library (SiliconLabs/cpc-nvm3) against its
natural-language specification.  The definitions below are a shallow embedding
of the Rust sources: src/src/protocol/mod.rs (wire codec, header validation,
transaction ids) and src/src/nvm3/mod.rs (instance engine: write fragmentation,
read reassembly, enumeration, counter and delete operations, instance state).
Machine integers are modelled by Nat with explicit reductions modulo 2^8 or
2^16 where the Rust code truncates or wraps; fallible code returns Except or
Option; the remote side of the link is modelled by an explicit script, the list
of responses successive reads of the link yield.
-/

/-- Public error codes of the library, CpcNvm3ErrorCodes in src/src/lib.rs
(FAILURE = -1 ... BUFFER_TOO_SMALL = -11). -/
inductive CpcNvm3ErrorCode
  | failure
  | notInitialized
  | notOpen
  | notClosed
  | unknownError
  | invalidArg
  | invalidVersion
  | invalidObjectKey
  | tryAgain
  | cpcEndpointError
  | bufferTooSmall
deriving DecidableEq, Repr

/-- sl_status codes recognized by the StatusIs decoder, SlStatus in
src/src/protocol/mod.rs (Ok = 0, Fail = 1, Busy = 4, Unknown otherwise). -/
inductive SlStatus
  | ok
  | fail
  | busy
  | unknown
deriving DecidableEq, Repr

/-- NVM3 ecodes recognized by the StatusIs decoder, ECode in
src/src/protocol/mod.rs; unrecognized 32-bit values decode to unknown. -/
inductive ECode
  | ok
  | alignmentInvalid
  | sizeTooSmall
  | noValidPages
  | pageSizeNotSupported
  | objectSizeNotSupported
  | storageFull
  | notOpened
  | openedWithOtherParameters
  | parameter
  | keyInvalid
  | keyNotFound
  | objectIsNotData
  | objectIsNotACounter
  | eraseFailed
  | writeDataSize
  | writeFailed
  | readDataSize
  | readFailed
  | initWithFullNvm
  | resizeParameter
  | resizeNotEnoughSpace
  | eraseCountError
  | addressRange
  | nvmAccess
  | unknown
deriving DecidableEq, Repr

/-- Decoded body of a StatusIs response, StatusCode in src/src/protocol/mod.rs:
a response-type discriminator selects sl_status or ecode; any other
discriminator yields Unknown. -/
inductive StatusCode
  | sl (s : SlStatus)
  | ec (e : ECode)
  | unknown
deriving DecidableEq, Repr

/-- One WriteData frame as sent on the link by write_data
(src/src/nvm3/mod.rs, lines 827-891): the u16 offset field, the u8 last_frag
flag and the payload bytes appended by CmdWriteData::serialize. -/
structure WriteFragment where
  offset : Nat
  last_frag : Nat
  payload : List Nat
deriving DecidableEq, Repr

/-- Outcome of the write_data command pump: success, a public error code, or
blocked (the response script is exhausted and the real code would block in
read, which never happens in the claims' scenarios). -/
inductive WriteOutcome
  | success
  | error (e : CpcNvm3ErrorCode)
  | blocked
deriving DecidableEq, Repr

/-- The fragment write_data builds at a given offset: payload is
data[offset .. min(offset+fragment_size, data.len)], last_frag is 1 exactly
when data.len - offset <= fragment_size, and the offset field on the wire is
the Rust expression offset as u16. -/
def mkWriteFragment (fragment_size : Nat) (data : List Nat) (offset : Nat) :
    WriteFragment where
  offset := offset % 65536
  last_frag := if data.length - offset ≤ fragment_size then 1 else 0
  payload := (data.drop offset).take fragment_size

/-- The while-loop of write_data (src/src/nvm3/mod.rs, lines 827-891), one
script element consumed per fragment acknowledgement.  Response mapping as in
the source: SlStatus Ok continues (or completes on the last fragment), Fail
and Unknown map to FAILURE, Busy maps to TRY_AGAIN, ECode KeyInvalid maps to
INVALID_OBJECT_KEY, every other ecode to UNKNOWN_ERROR and an unknown response
type to UNKNOWN_ERROR. -/
def writeLoop (fragment_size : Nat) (data : List Nat) (offset : Nat) :
    List StatusCode → List WriteFragment × WriteOutcome
  | [] => ([mkWriteFragment fragment_size data offset], .blocked)
  | r :: rest =>
    let frag := mkWriteFragment fragment_size data offset
    match r with
    | .sl .ok =>
      if data.length - offset ≤ fragment_size then ([frag], .success)
      else
        let next := writeLoop fragment_size data (offset + fragment_size) rest
        (frag :: next.1, next.2)
    | .sl .fail => ([frag], .error .failure)
    | .sl .busy => ([frag], .error .tryAgain)
    | .sl .unknown => ([frag], .error .failure)
    | .ec e =>
      if e = ECode.keyInvalid then ([frag], .error .invalidObjectKey)
      else ([frag], .error .unknownError)
    | .unknown => ([frag], .error .unknownError)

/-- write_data (src/src/nvm3/mod.rs, lines 797-893) for an instance whose
negotiated caps are fragment_size and max_write_size: the oversize guard
compares data.len() as u16 (hence the reduction modulo 2^16, faithful to the
Rust cast) against max_write_size and returns INVALID_ARG before any frame is
sent; otherwise the fragmentation loop runs. -/
def write_data (fragment_size max_write_size : Nat) (data : List Nat)
    (script : List StatusCode) : List WriteFragment × WriteOutcome :=
  if max_write_size < data.length % 65536 then ([], .error .invalidArg)
  else writeLoop fragment_size data 0 script

/-- A response consumed by the read_data reassembly loop: either a parsed
ReadDataIs fragment (payload bytes and last_frag flag) or a parsed StatusIs
body. -/
inductive ReadResponse
  | data (payload : List Nat) (lastFrag : Bool)
  | status (s : StatusCode)
deriving DecidableEq, Repr

/-- Outcome of a reassembly loop: the accumulated bytes, an error, or blocked
(script exhausted, the real code would block in read). -/
inductive ReadOutcome
  | done (bytes : List Nat)
  | err (e : CpcNvm3ErrorCode)
  | blocked
deriving DecidableEq, Repr

/-- StatusIs mapping of the read_data loop (src/src/nvm3/mod.rs, lines
1142-1181): Busy maps to TRY_AGAIN, KeyNotFound to INVALID_OBJECT_KEY,
ReadDataSize and SizeTooSmall to BUFFER_TOO_SMALL, every other sl_status or
ecode to FAILURE, an unknown response type to UNKNOWN_ERROR. -/
def readStatusMap : StatusCode → CpcNvm3ErrorCode
  | .sl .busy => .tryAgain
  | .sl _ => .failure
  | .ec .keyNotFound => .invalidObjectKey
  | .ec .readDataSize => .bufferTooSmall
  | .ec .sizeTooSmall => .bufferTooSmall
  | .ec _ => .failure
  | .unknown => .unknownError

/-- The receive loop of read_data (src/src/nvm3/mod.rs, lines 1124-1184):
append each ReadDataIs payload to the accumulator and stop at last_frag. -/
def readLoop : List ReadResponse → List Nat → ReadOutcome
  | [], _ => .blocked
  | .data seg last :: rest, acc =>
    if last then .done (acc ++ seg) else readLoop rest (acc ++ seg)
  | .status s :: _, _ => .err (readStatusMap s)

/-- Result of read_data: the returned code (none = 0, success), the caller's
buffer after the call, and the value stored in the data_size out-parameter
(none when the code returns before writing it). -/
structure ReadDataResult where
  ret : Option CpcNvm3ErrorCode
  buffer : List Nat
  dataSize : Option Nat
deriving DecidableEq, Repr

/-- read_data (src/src/nvm3/mod.rs, lines 1102-1196): run the reassembly loop,
guard the accumulated length against the caller's buffer length (the buffer is
untouched on the BUFFER_TOO_SMALL path), else copy into the buffer prefix and
report the accumulated length.  none models the loop blocking on an exhausted
script. -/
def read_data (buffer : List Nat) (script : List ReadResponse) :
    Option ReadDataResult :=
  match readLoop script [] with
  | .blocked => none
  | .err e => some ⟨some e, buffer, none⟩
  | .done d =>
    if buffer.length < d.length then some ⟨some .bufferTooSmall, buffer, none⟩
    else some ⟨none, d ++ buffer.drop d.length, some d.length⟩

/-- StatusIs mapping of the list_objects loop (src/src/nvm3/mod.rs, lines
1034-1061): Busy maps to TRY_AGAIN, every other sl_status and every ecode to
FAILURE, an unknown response type to UNKNOWN_ERROR. -/
def enumStatusMap : StatusCode → CpcNvm3ErrorCode
  | .sl .busy => .tryAgain
  | .sl _ => .failure
  | .ec _ => .failure
  | .unknown => .unknownError

/-- The receive loop of list_objects (src/src/nvm3/mod.rs, lines 1016-1064),
identical reassembly pattern to read_data with its own status mapping. -/
def enumLoop : List ReadResponse → List Nat → ReadOutcome
  | [], _ => .blocked
  | .data seg last :: rest, acc =>
    if last then .done (acc ++ seg) else enumLoop rest (acc ++ seg)
  | .status s :: _, _ => .err (enumStatusMap s)

/-- extract_object_keys (src/src/nvm3/mod.rs, lines 988-990): nom many0 of
le_u32, returning the decoded keys and the unparsed remainder (fewer than 4
bytes). -/
def extract_object_keys : List Nat → List Nat × List Nat
  | b0 :: b1 :: b2 :: b3 :: rest =>
    let next := extract_object_keys rest
    ((b0 + 256 * b1 + 65536 * b2 + 16777216 * b3) :: next.1, next.2)
  | rest => ([], rest)

/-- Result of list_objects: the key buffer and object count on success, an
error code, a panic (the Rust copy_from_slice aborts on a length mismatch), or
blocked on an exhausted script. -/
inductive ListObjectsResult
  | ok (keysOut : List Nat) (objectCount : Nat)
  | err (e : CpcNvm3ErrorCode)
  | panicked
  | blocked
deriving DecidableEq, Repr

/-- list_objects (src/src/nvm3/mod.rs, lines 992-1100) for a caller buffer of
the given capacity (in keys): reassemble, reject more than capacity * 4 bytes
with BUFFER_TOO_SMALL, reject a length that is not a multiple of 4 with
FAILURE, decode the keys, then copy_from_slice into the caller's array, which
is only defined when the decoded key count equals the capacity and panics
otherwise. -/
def list_objects (capacity : Nat) (script : List ReadResponse) :
    ListObjectsResult :=
  match enumLoop script [] with
  | .blocked => .blocked
  | .err e => .err e
  | .done d =>
    if capacity * 4 < d.length then .err .bufferTooSmall
    else if d.length / 4 * 4 ≠ d.length then .err .failure
    else
      let keys := (extract_object_keys d).1
      let rem := (extract_object_keys d).2
      if keys.length ≠ d.length / 4 ∨ rem.length ≠ 0 then .err .failure
      else if keys.length = capacity then .ok keys (d.length / 4)
      else .panicked

/-- Response to GetObjectCount: a StatusIs body or an ObjectCountIs body
(CmdGetObjectCountResponse in src/src/protocol/mod.rs). -/
inductive GetObjectCountResponse
  | status (s : StatusCode)
  | count (n : Nat)
deriving DecidableEq, Repr

/-- Response handling of get_object_count (src/src/nvm3/mod.rs, lines
957-985): every sl_status (Ok, Fail, Busy and Unknown alike) maps to FAILURE,
ecode KeyNotFound to INVALID_OBJECT_KEY, every other ecode to FAILURE, an
unknown response type to UNKNOWN_ERROR. -/
def get_object_count_response_map :
    GetObjectCountResponse → Except CpcNvm3ErrorCode Nat
  | .count n => .ok n
  | .status (.sl _) => .error .failure
  | .status (.ec .keyNotFound) => .error .invalidObjectKey
  | .status (.ec _) => .error .failure
  | .status .unknown => .error .unknownError

/-- Response to ReadCounter and IncrementCounter: a counter value or a
StatusIs body (CmdCounterValueResponse in src/src/protocol/mod.rs). -/
inductive CmdCounterValueResponse
  | data (v : Nat)
  | status (s : StatusCode)
deriving DecidableEq, Repr

/-- process_read_counter_response (src/src/nvm3/mod.rs, lines 1264-1295),
shared by read_counter and increment_counter: every sl_status (Ok, Fail,
Unknown and Busy alike) maps to FAILURE, ecode KeyNotFound to
INVALID_OBJECT_KEY, every other ecode to FAILURE, an unknown response type to
UNKNOWN_ERROR. -/
def process_read_counter_response :
    CmdCounterValueResponse → Except CpcNvm3ErrorCode Nat
  | .data v => .ok v
  | .status (.sl _) => .error .failure
  | .status (.ec .keyNotFound) => .error .invalidObjectKey
  | .status (.ec _) => .error .failure
  | .status .unknown => .error .unknownError

/-- Response handling of write_counter (src/src/nvm3/mod.rs, lines
1224-1260): Ok succeeds, Fail maps to FAILURE, Unknown and Busy map to
FAILURE, ecode KeyInvalid to INVALID_OBJECT_KEY, every other ecode to
UNKNOWN_ERROR, an unknown response type to UNKNOWN_ERROR. -/
def write_counter_response_map : StatusCode → Except CpcNvm3ErrorCode Unit
  | .sl .ok => .ok ()
  | .sl .fail => .error .failure
  | .sl .unknown => .error .failure
  | .sl .busy => .error .failure
  | .ec .keyInvalid => .error .invalidObjectKey
  | .ec _ => .error .unknownError
  | .unknown => .error .unknownError

/-- Response handling of delete_object (src/src/nvm3/mod.rs, lines
1442-1478): Ok succeeds, Fail maps to FAILURE, Unknown and Busy map to
FAILURE, ecodes KeyInvalid and KeyNotFound to INVALID_OBJECT_KEY, every other
ecode to UNKNOWN_ERROR, an unknown response type to UNKNOWN_ERROR. -/
def delete_object_response_map : StatusCode → Except CpcNvm3ErrorCode Unit
  | .sl .ok => .ok ()
  | .sl .fail => .error .failure
  | .sl .unknown => .error .failure
  | .sl .busy => .error .failure
  | .ec .keyInvalid => .error .invalidObjectKey
  | .ec .keyNotFound => .error .invalidObjectKey
  | .ec _ => .error .unknownError
  | .unknown => .error .unknownError

/-- A received frame header, Header in src/src/protocol/mod.rs: cmd u8,
len u16 (body length, excluding the 8-byte header), unique_id u32,
transaction_id u8, parsed little-endian by deserialize_header. -/
structure Hdr where
  cmd : Nat
  len : Nat
  unique_id : Nat
  transaction_id : Nat
deriving DecidableEq, Repr

/-- ProtocolError in src/src/protocol/mod.rs. -/
inductive ProtocolErr
  | unknownProtocolError
  | deserializationError
  | serializationError
  | invalidTransactionId (expected received : Nat)
  | bug
  | invalidCommandId
  | invalidUniqueId (received expected : Nat)
  | invalidResponseLen (expected received : Nat)
deriving DecidableEq, Repr

/-- Header::validate (src/src/protocol/mod.rs, lines 267-325): checks run in
order opcode, length, unique id, transaction id, and the first failing check
determines the error.  The expected length is a usize compared against the u16
length field as expected_len as u16, hence the reduction modulo 2^16. -/
def Hdr.validate (h : Hdr) (expected_cmd expected_len expected_unique_id
    expected_transaction_id : Nat) : Except ProtocolErr Unit :=
  if h.cmd ≠ expected_cmd then .error .invalidCommandId
  else if h.len ≠ expected_len % 65536 then
    .error (.invalidResponseLen expected_len h.len)
  else if h.unique_id ≠ expected_unique_id then
    .error (.invalidUniqueId h.unique_id expected_unique_id)
  else if h.transaction_id ≠ expected_transaction_id then
    .error (.invalidTransactionId expected_transaction_id h.transaction_id)
  else .ok ()

/-- The From ProtocolError impl for CpcNvm3Error (src/src/nvm3/mod.rs, lines
108-152): Bug and UnknownProcotolError map to UNKNOWN_ERROR, every other
protocol error to FAILURE. -/
def protocolErrToCpc : ProtocolErr → CpcNvm3ErrorCode
  | .bug => .unknownError
  | .unknownProtocolError => .unknownError
  | .invalidTransactionId _ _ => .failure
  | .invalidCommandId => .failure
  | .invalidUniqueId _ _ => .failure
  | .invalidResponseLen _ _ => .failure
  | .serializationError => .failure
  | .deserializationError => .failure

/-- Outcome of CpcNvm3Instance::parse_response for one frame, RxParseOutcome
in src/src/nvm3/mod.rs. -/
inductive RxOutcome
  | parsed (h : Hdr)
  | retry
  | err (e : CpcNvm3ErrorCode)
deriving DecidableEq, Repr

/-- CpcNvm3Instance::parse_response (src/src/nvm3/mod.rs, lines 563-594) at
header granularity: InvalidCommandId, InvalidTransactionId and InvalidUniqueId
become Retry (the frame is dropped), every other protocol error is surfaced
through the From impl. -/
def parse_response (expected_cmd expected_len expected_unique_id
    expected_transaction_id : Nat) (h : Hdr) : RxOutcome :=
  match h.validate expected_cmd expected_len expected_unique_id
      expected_transaction_id with
  | .ok _ => .parsed h
  | .error .invalidCommandId => .retry
  | .error (.invalidTransactionId _ _) => .retry
  | .error (.invalidUniqueId _ _) => .retry
  | .error e => .err (protocolErrToCpc e)

/-- Result of the receive loop over a list of incoming frames. -/
inductive RxResult
  | parsed (h : Hdr)
  | err (e : CpcNvm3ErrorCode)
  | blocked
deriving DecidableEq, Repr

/-- CpcNvm3Instance::get_response (src/src/nvm3/mod.rs, lines 596-605): read a
frame, parse it, return on Parsed, re-read on Retry, surface on Error. -/
def get_response (expected_cmd expected_len expected_unique_id
    expected_transaction_id : Nat) : List Hdr → RxResult
  | [] => .blocked
  | h :: rest =>
    match parse_response expected_cmd expected_len expected_unique_id
        expected_transaction_id h with
    | .parsed h => .parsed h
    | .retry => get_response expected_cmd expected_len expected_unique_id
        expected_transaction_id rest
    | .err e => .err e

/-- TransactionId::new (src/src/protocol/mod.rs, lines 382-389): pre-increment
the instance's 8-bit counter with wrap-around (wrapping_add(1)) and carry the
updated counter in the outgoing frame.  Returns (updated counter, id carried
in the frame). -/
def transaction_id_new (counter : Nat) : Nat × Nat :=
  ((counter + 1) % 256, (counter + 1) % 256)

/-- The instance's transaction counter after n commands have been issued from
the given starting value. -/
def counter_after (start : Nat) : Nat → Nat
  | 0 => start
  | n + 1 => (transaction_id_new (counter_after start n)).1

/-- Header::new as used by every command constructor: the outgoing header
carries the id produced by TransactionId::new; the updated counter is returned
alongside. -/
def new_header (cmd len unique_id counter : Nat) : Hdr × Nat :=
  (⟨cmd, len, unique_id, (transaction_id_new counter).2⟩,
   (transaction_id_new counter).1)

/-- CpcNvm3Instance (src/src/nvm3/mod.rs, lines 165-172).  The two Option
cpc fields are modelled by Booleans (true = Some). -/
structure CpcNvm3Instance where
  transaction_id : Nat
  unique_id : Nat
  maximum_write_fragment_size : Option Nat
  maximum_write_size : Option Nat
  cpc_endpoint : Bool
  cpc_handle : Bool
deriving DecidableEq, Repr

/-- CpcNvm3Instance::close (src/src/nvm3/mod.rs, lines 507-533): requires an
endpoint, then clears cpc_endpoint and cpc_handle.  It does not touch
maximum_write_size or maximum_write_fragment_size (only deinit clears those,
lines 912-914). -/
def CpcNvm3Instance.close (s : CpcNvm3Instance) :
    Except CpcNvm3ErrorCode CpcNvm3Instance :=
  if s.cpc_endpoint then
    .ok { s with cpc_endpoint := false, cpc_handle := false }
  else .error .notOpen

/-- CpcNvm3Instance::get_maximum_write_size (src/src/nvm3/mod.rs, lines
535-547): returns the stored negotiated value whenever it is Some, and
NOT_OPEN only when it is None. -/
def CpcNvm3Instance.get_maximum_write_size (s : CpcNvm3Instance) :
    Except CpcNvm3ErrorCode Nat :=
  match s.maximum_write_size with
  | some v => .ok v
  | none => .error .notOpen

/-- CpcNvm3Instance::write and ::read entry guard (src/src/nvm3/mod.rs, lines
442-454 and 475-487): with no endpoint and no handle the operation fails with
NOT_OPEN before anything reaches the link. -/
def CpcNvm3Instance.link_guard (s : CpcNvm3Instance) :
    Except CpcNvm3ErrorCode Unit :=
  if s.cpc_endpoint then .ok ()
  else if s.cpc_handle then .ok ()
  else .error .notOpen

/-- In-memory size of Header (repr(C, packed): u8 + u16 + u32 + u8). -/
def Hdr.size_of : Nat := 8

/-- In-memory size of the CmdWriteData struct (src/src/protocol/mod.rs, lines
1227-1235) on the 64-bit targets this library builds for.  The struct has
default (repr(Rust)) layout and owns a Vec of payload bytes, so
mem::size_of counts the packed 8-byte header, object_key u32, offset u16,
last_frag u8 and the 24-byte Vec (pointer, capacity, length), 39 bytes of
fields padded up to the 8-byte alignment of Vec: 40. -/
def CmdWriteData.size_of : Nat := 40

/-- CmdWriteData::get_overhead (src/src/protocol/mod.rs, lines 1284-1286):
mem::size_of of the struct minus mem::size_of of the header. -/
def CmdWriteData.get_overhead : Nat := CmdWriteData.size_of - Hdr.size_of

/-- CmdWriteData::base_size (src/src/protocol/mod.rs, lines 1247-1258): the
bincode-serialized size of a CmdWriteData with empty payload (the data field
is skipped by serde): 8-byte header + object_key u32 + offset u16 +
last_frag u8 = 15 bytes. -/
def CmdWriteData.base_size : Nat := 15

/-- Serialized length of one WriteData frame (CmdWriteData::serialize,
src/src/protocol/mod.rs, lines 1288-1295): the 15 fixed bytes followed by the
payload verbatim. -/
def CmdWriteData.serialized_len (payload_len : Nat) : Nat :=
  CmdWriteData.base_size + payload_len

/-- The fragment-size computation in CpcNvm3Instance::open
(src/src/nvm3/mod.rs, lines 292-299): the link's maximum write size minus
CmdWriteData::get_overhead. -/
def open_fragment_size (cpc_max_write_size : Nat) : Nat :=
  cpc_max_write_size - CmdWriteData.get_overhead

theorem writeLoop_success_spec (fragment_size : Nat) (data : List Nat)
    (hlen : data.length < 65536) :
    ∀ (script : List StatusCode) (offset : Nat), offset ≤ data.length →
      ∀ frags, writeLoop fragment_size data offset script = (frags, .success) →
        frags ≠ [] ∧
        (frags.map WriteFragment.payload).flatten = data.drop offset ∧
        frags.map WriteFragment.offset =
          (List.range frags.length).map (fun i => offset + i * fragment_size) ∧
        frags.map WriteFragment.last_frag =
          List.replicate (frags.length - 1) 0 ++ [1] := by
  intro script
  induction script with
  | nil =>
    intro offset _ frags h
    simp [writeLoop] at h
  | cons r rest ih =>
    intro offset hoff frags h
    match r with
    | .sl .ok =>
      by_cases hlast : data.length - offset ≤ fragment_size
      · have hfr : frags = [mkWriteFragment fragment_size data offset] := by
          simpa [writeLoop, hlast] using (congrArg Prod.fst h).symm
        subst hfr
        refine ⟨by simp, ?_, ?_, ?_⟩
        · have hdl : (List.drop offset data).length ≤ fragment_size := by
            rw [List.length_drop]; exact hlast
          simp [mkWriteFragment, List.take_of_length_le hdl]
        · have hmod : offset % 65536 = offset := Nat.mod_eq_of_lt (by omega)
          simp [mkWriteFragment, hmod, show List.range 1 = [0] from rfl]
        · simp [mkWriteFragment, hlast]
      · have hoff' : offset + fragment_size ≤ data.length := by omega
        have hfr : frags = mkWriteFragment fragment_size data offset ::
            (writeLoop fragment_size data (offset + fragment_size) rest).1 := by
          simpa [writeLoop, hlast] using (congrArg Prod.fst h).symm
        have hout : (writeLoop fragment_size data (offset + fragment_size)
            rest).2 = WriteOutcome.success := by
          simpa [writeLoop, hlast] using congrArg Prod.snd h
        obtain ⟨hne, hjoin, hoffs, hlf⟩ :=
          ih (offset + fragment_size) hoff'
            (writeLoop fragment_size data (offset + fragment_size) rest).1
            (by rw [← hout])
        subst hfr
        refine ⟨by simp, ?_, ?_, ?_⟩
        · simp only [List.map_cons, List.flatten_cons, hjoin]
          have hdd : (data.drop offset).drop fragment_size =
              data.drop (offset + fragment_size) := by
            rw [List.drop_drop]
          rw [← hdd, mkWriteFragment, List.take_append_drop]
        · simp only [List.map_cons, List.length_cons, hoffs,
            List.range_succ_eq_map, List.map_map]
          congr 1
          · simp [mkWriteFragment]
            omega
          · apply List.map_congr_left
            intro i _
            simp [Function.comp, Nat.succ_mul]
            omega
        · simp only [List.map_cons, List.length_cons, hlf]
          have hn : (writeLoop fragment_size data (offset + fragment_size)
              rest).1.length ≠ 0 := by
            simpa [List.length_eq_zero] using hne
          have hfrag0 : (mkWriteFragment fragment_size data offset).last_frag
              = 0 := by simp [mkWriteFragment, hlast]
          rw [hfrag0]
          cases hN : (writeLoop fragment_size data (offset + fragment_size)
              rest).1.length with
          | zero => exact absurd hN hn
          | succ m => simp [List.replicate_succ]
    | .sl .fail => simp [writeLoop] at h
    | .sl .busy => simp [writeLoop] at h
    | .sl .unknown => simp [writeLoop] at h
    | .ec e =>
      by_cases hk : e = ECode.keyInvalid <;> simp [writeLoop, hk] at h
    | .unknown => simp [writeLoop] at h

/-- Claim C1: for every instance with negotiated caps set and every input
byte string accepted by write_data (the public operation takes the data
length as a u16, hence lengths below 2^16) whose fragment exchange completes
successfully, the WriteData fragments sent on the link satisfy: the
concatenation of the fragment payloads equals the original input, the offsets
carried in successive fragments increase by exactly max_fragment_size
starting at 0, and last_frag is 1 on exactly the final fragment and 0 on all
others. -/
theorem write_data_fragment_stream_spec (fragment_size max_write_size : Nat)
    (data : List Nat) (script : List StatusCode)
    (hlen : data.length < 65536)
    (hsucc : (write_data fragment_size max_write_size data script).2 =
      .success) :
    ((write_data fragment_size max_write_size data script).1.map
        WriteFragment.payload).flatten = data ∧
    (write_data fragment_size max_write_size data script).1.map
        WriteFragment.offset =
      (List.range (write_data fragment_size max_write_size data
        script).1.length).map (fun i => i * fragment_size) ∧
    (write_data fragment_size max_write_size data script).1.map
        WriteFragment.last_frag =
      List.replicate ((write_data fragment_size max_write_size data
        script).1.length - 1) 0 ++ [1] := by
  by_cases hacc : max_write_size < data.length % 65536
  · simp [write_data, hacc] at hsucc
  · simp only [write_data, hacc, if_neg, ite_false] at hsucc ⊢
    obtain ⟨hne, hjoin, hoffs, hlf⟩ :=
      writeLoop_success_spec fragment_size data hlen script 0
        (Nat.zero_le _) (writeLoop fragment_size data 0 script).1
        (by rw [← hsucc])
    refine ⟨by simpa using hjoin, ?_, hlf⟩
    rw [hoffs]
    apply List.map_congr_left
    intro i _
    omega

theorem write_data_fragment_stream_spec_witness :
    ((write_data 2 16 [1, 2, 3, 4, 5] [.sl .ok, .sl .ok, .sl .ok]).1.map
        WriteFragment.payload).flatten = [1, 2, 3, 4, 5] ∧
    (write_data 2 16 [1, 2, 3, 4, 5] [.sl .ok, .sl .ok, .sl .ok]).1.map
        WriteFragment.offset =
      (List.range (write_data 2 16 [1, 2, 3, 4, 5]
        [.sl .ok, .sl .ok, .sl .ok]).1.length).map (fun i => i * 2) ∧
    (write_data 2 16 [1, 2, 3, 4, 5] [.sl .ok, .sl .ok, .sl .ok]).1.map
        WriteFragment.last_frag =
      List.replicate ((write_data 2 16 [1, 2, 3, 4, 5]
        [.sl .ok, .sl .ok, .sl .ok]).1.length - 1) 0 ++ [1] :=
  write_data_fragment_stream_spec 2 16 [1, 2, 3, 4, 5]
    [.sl .ok, .sl .ok, .sl .ok] (by decide) (by decide)

/-- Claim C3: the StatusIs response to each WriteData fragment is mapped as
follows by the write loop: sl_status Ok continues to the next fragment, or
completes with success on the last fragment; Busy aborts with TRY_AGAIN; Fail
aborts with FAILURE; ecode KeyInvalid aborts with INVALID_OBJECT_KEY; any
other ecode aborts with UNKNOWN_ERROR. -/
theorem write_data_status_mapping (fragment_size : Nat) (data : List Nat)
    (offset : Nat) (rest : List StatusCode) :
    (writeLoop fragment_size data offset (.sl .ok :: rest) =
      if data.length - offset ≤ fragment_size then
        ([mkWriteFragment fragment_size data offset], .success)
      else
        (mkWriteFragment fragment_size data offset ::
          (writeLoop fragment_size data (offset + fragment_size) rest).1,
         (writeLoop fragment_size data (offset + fragment_size) rest).2)) ∧
    (writeLoop fragment_size data offset (.sl .busy :: rest) =
      ([mkWriteFragment fragment_size data offset], .error .tryAgain)) ∧
    (writeLoop fragment_size data offset (.sl .fail :: rest) =
      ([mkWriteFragment fragment_size data offset], .error .failure)) ∧
    (writeLoop fragment_size data offset (.ec .keyInvalid :: rest) =
      ([mkWriteFragment fragment_size data offset], .error .invalidObjectKey)) ∧
    (∀ e : ECode, e ≠ ECode.keyInvalid →
      writeLoop fragment_size data offset (.ec e :: rest) =
        ([mkWriteFragment fragment_size data offset],
         .error .unknownError)) := by
  refine ⟨?_, by simp [writeLoop], by simp [writeLoop],
    by simp [writeLoop], ?_⟩
  · by_cases hlast : data.length - offset ≤ fragment_size <;>
      simp [writeLoop, hlast]
  · intro e he
    simp [writeLoop, he]

theorem write_data_status_mapping_witness :
    writeLoop 4 [1, 2, 3] 0 [.ec .storageFull] =
      ([mkWriteFragment 4 [1, 2, 3] 0], .error .unknownError) :=
  (write_data_status_mapping 4 [1, 2, 3] 0 []).2.2.2.2
    ECode.storageFull (by decide)

/-- Claim C4: for every instance with negotiated max_write_size and every
input byte string (of u16-representable length, the type the public operation
takes) strictly longer than max_write_size, write_data returns INVALID_ARG
and sends no fragment on the link. -/
theorem write_data_oversize_rejected (fragment_size max_write_size : Nat)
    (data : List Nat) (script : List StatusCode)
    (hlen : data.length < 65536)
    (hgt : max_write_size < data.length) :
    write_data fragment_size max_write_size data script =
      ([], .error .invalidArg) := by
  rw [write_data, Nat.mod_eq_of_lt hlen]
  simp [hgt]

theorem write_data_oversize_rejected_witness :
    write_data 8 3 [1, 2, 3, 4, 5] [.sl .ok, .sl .ok] =
      ([], .error .invalidArg) :=
  write_data_oversize_rejected 8 3 [1, 2, 3, 4, 5] [.sl .ok, .sl .ok]
    (by decide) (by decide)

theorem readLoop_fragments (qs : List (List Nat)) (plast : List Nat) :
    ∀ acc, readLoop (qs.map (fun p => ReadResponse.data p false) ++
      [ReadResponse.data plast true]) acc =
      .done (acc ++ (qs.flatten ++ plast)) := by
  induction qs with
  | nil => intro acc; simp [readLoop]
  | cons q qs ih =>
    intro acc
    simp only [List.map_cons, List.cons_append, readLoop,
      Bool.false_eq_true, if_false, List.append_eq, ih, List.flatten_cons,
      List.append_assoc]

/-- Claim C2: read_data repeatedly receives ReadDataIs fragments and appends
their payloads until a fragment with last_frag true arrives; if the
accumulated length exceeds the caller's buffer length it returns
BUFFER_TOO_SMALL and leaves the buffer unmodified, otherwise it copies the
accumulated bytes into the caller's buffer and reports the accumulated length
as the actual size. -/
theorem read_data_reassembly (buffer : List Nat) (qs : List (List Nat))
    (plast : List Nat) :
    (buffer.length < (qs.flatten ++ plast).length →
      read_data buffer (qs.map (fun p => ReadResponse.data p false) ++
        [ReadResponse.data plast true]) =
        some ⟨some .bufferTooSmall, buffer, none⟩) ∧
    ((qs.flatten ++ plast).length ≤ buffer.length →
      read_data buffer (qs.map (fun p => ReadResponse.data p false) ++
        [ReadResponse.data plast true]) =
        some ⟨none, (qs.flatten ++ plast) ++
          buffer.drop (qs.flatten ++ plast).length,
          some (qs.flatten ++ plast).length⟩) := by
  have hloop := readLoop_fragments qs plast []
  constructor
  · intro hgt
    simp only [read_data, hloop, List.nil_append]
    rw [if_pos hgt]
  · intro hle
    simp only [read_data, hloop, List.nil_append]
    rw [if_neg (Nat.not_lt.mpr hle)]

theorem read_data_reassembly_witness :
    read_data [0, 0, 0, 0] ([[1, 2]].map (fun p => ReadResponse.data p false)
      ++ [ReadResponse.data [3] true]) = some ⟨none, [1, 2, 3, 0], some 3⟩
    ∧
    read_data [0, 0] ([[1, 2]].map (fun p => ReadResponse.data p false)
      ++ [ReadResponse.data [3] true]) =
      some ⟨some .bufferTooSmall, [0, 0], none⟩ := by
  constructor
  · rw [(read_data_reassembly [0, 0, 0, 0] [[1, 2]] [3]).2 (by decide)]
    rfl
  · rw [(read_data_reassembly [0, 0] [[1, 2]] [3]).1 (by decide)]

/-- Claim C5: for an outstanding command, the receive loop disposes of an
incoming frame by the first failing check in the source's validation order
(opcode, length, unique id, transaction id): an opcode, unique-id or
transaction-id mismatch drops the frame and the reader re-reads, while a
length field that does not equal the frame length minus the header size is
surfaced to the caller as FAILURE rather than dropped; a fully matching frame
is accepted. -/
theorem response_filtering (expected_cmd expected_len expected_unique_id
    expected_transaction_id : Nat) (h : Hdr) (rest : List Hdr) :
    (h.cmd ≠ expected_cmd →
      get_response expected_cmd expected_len expected_unique_id
        expected_transaction_id (h :: rest) =
      get_response expected_cmd expected_len expected_unique_id
        expected_transaction_id rest) ∧
    (h.cmd = expected_cmd → h.len ≠ expected_len % 65536 →
      get_response expected_cmd expected_len expected_unique_id
        expected_transaction_id (h :: rest) = .err .failure) ∧
    (h.cmd = expected_cmd → h.len = expected_len % 65536 →
      h.unique_id ≠ expected_unique_id →
      get_response expected_cmd expected_len expected_unique_id
        expected_transaction_id (h :: rest) =
      get_response expected_cmd expected_len expected_unique_id
        expected_transaction_id rest) ∧
    (h.cmd = expected_cmd → h.len = expected_len % 65536 →
      h.unique_id = expected_unique_id →
      h.transaction_id ≠ expected_transaction_id →
      get_response expected_cmd expected_len expected_unique_id
        expected_transaction_id (h :: rest) =
      get_response expected_cmd expected_len expected_unique_id
        expected_transaction_id rest) ∧
    (h.cmd = expected_cmd → h.len = expected_len % 65536 →
      h.unique_id = expected_unique_id →
      h.transaction_id = expected_transaction_id →
      get_response expected_cmd expected_len expected_unique_id
        expected_transaction_id (h :: rest) = .parsed h) := by
  refine ⟨?_, ?_, ?_, ?_, ?_⟩
  · intro h1
    simp [get_response, parse_response, Hdr.validate, h1]
  · intro h1 h2
    simp [get_response, parse_response, Hdr.validate, h1, h2, protocolErrToCpc]
  · intro h1 h2 h3
    simp [get_response, parse_response, Hdr.validate, h1, h2, h3]
  · intro h1 h2 h3 h4
    simp [get_response, parse_response, Hdr.validate, h1, h2, h3, h4]
  · intro h1 h2 h3 h4
    simp [get_response, parse_response, Hdr.validate, h1, h2, h3, h4]

theorem response_filtering_witness :
    get_response 2 5 0 7 [⟨2, 5, 0, 3⟩] = get_response 2 5 0 7 [] :=
  (response_filtering 2 5 0 7 ⟨2, 5, 0, 3⟩ []).2.2.2.1 rfl (by decide)
    (by decide) (by decide)

/-- Claim C6: each outgoing command carries the transaction id produced by
pre-incrementing the instance's 8-bit counter with wrap-around: starting from
counter 0 the id carried by the n-th frame is n mod 256, so the observed
sequence is 1, 2, ..., 255, 0, 1, ..., and from a counter holding 0xFF the
next frame carries 0x00. -/
theorem transaction_id_wraparound :
    (∀ cmd len unique_id counter,
      (new_header cmd len unique_id counter).1.transaction_id =
        (transaction_id_new counter).2) ∧
    (∀ n : Nat, counter_after 0 (n + 1) = (n + 1) % 256) ∧
    (transaction_id_new 255).2 = 0 := by
  refine ⟨fun _ _ _ _ => rfl, ?_, rfl⟩
  intro n
  induction n with
  | zero => rfl
  | succ m ihm =>
    show (transaction_id_new (counter_after 0 (m + 1))).1 = (m + 1 + 1) % 256
    rw [transaction_id_new, ihm]
    omega

/-- Claim C7 counterexample: a StatusIs response carrying sl_status Busy does
not surface as TRY_AGAIN on the non-write paths: process_read_counter_response
(shared by read_counter and increment_counter) maps it to FAILURE, and so do
the response handlers of get_object_count, write_counter and delete_object. -/
theorem busy_not_try_again_on_counter_paths :
    process_read_counter_response (.status (.sl .busy)) =
      .error CpcNvm3ErrorCode.failure ∧
    get_object_count_response_map (.status (.sl .busy)) =
      .error CpcNvm3ErrorCode.failure ∧
    write_counter_response_map (.sl .busy) =
      .error CpcNvm3ErrorCode.failure ∧
    delete_object_response_map (.sl .busy) =
      .error CpcNvm3ErrorCode.failure ∧
    CpcNvm3ErrorCode.failure ≠ CpcNvm3ErrorCode.tryAgain :=
  ⟨rfl, rfl, rfl, rfl, by decide⟩

/-- Claim C7 amended: a StatusIs response carrying sl_status Busy surfaces as
TRY_AGAIN for write_data, read_data and list_objects, but as FAILURE for
get_object_count, read_counter, increment_counter, write_counter and
delete_object. -/
theorem busy_mapping_per_operation :
    (∀ fragment_size data offset rest,
      (writeLoop fragment_size data offset (.sl .busy :: rest)).2 =
        .error .tryAgain) ∧
    (∀ rest acc, readLoop (.status (.sl .busy) :: rest) acc =
      .err .tryAgain) ∧
    (∀ rest acc, enumLoop (.status (.sl .busy) :: rest) acc =
      .err .tryAgain) ∧
    process_read_counter_response (.status (.sl .busy)) = .error .failure ∧
    get_object_count_response_map (.status (.sl .busy)) = .error .failure ∧
    write_counter_response_map (.sl .busy) = .error .failure ∧
    delete_object_response_map (.sl .busy) = .error .failure :=
  ⟨fun _ _ _ _ => rfl, fun _ _ => rfl, fun _ _ => rfl, rfl, rfl, rfl, rfl⟩

/-- Claim C8, evaluated at the failing input: close on an opened instance
succeeds and clears the endpoint and handle but not the negotiated
maximum_write_size, so get_maximum_write_size on the now-closed instance
returns the stale negotiated value (here 255, the value the test fixture
negotiates) instead of NOT_OPEN, while the operations that touch the link do
fail with NOT_OPEN on the same closed instance. -/
theorem get_maximum_write_size_after_close :
    CpcNvm3Instance.close ⟨3, 42, some 224, some 255, true, true⟩ =
      .ok ⟨3, 42, some 224, some 255, false, false⟩ ∧
    CpcNvm3Instance.get_maximum_write_size
      ⟨3, 42, some 224, some 255, false, false⟩ = .ok 255 ∧
    (Except.ok 255 : Except CpcNvm3ErrorCode Nat) ≠ .error .notOpen ∧
    CpcNvm3Instance.link_guard ⟨3, 42, some 224, some 255, false, false⟩ =
      .error .notOpen :=
  ⟨rfl, rfl, fun h => Except.noConfusion h, rfl⟩

/-- Claim C9 counterexample: at a link maximum frame size of 256 bytes (the
value the test fixture reports), open computes max_fragment_size as
256 - CmdWriteData::get_overhead = 224 and not 256 - 15 = 241: get_overhead
is the in-memory size of the CmdWriteData struct minus the in-memory header
size (32 bytes, since the struct holds a 24-byte Vec plus padding), not the
15-byte serialized overhead, so a maximal fragment serializes to 239 bytes
and does not exactly fill the 256-byte frame. -/
theorem fragment_size_not_serialized_overhead :
    open_fragment_size 256 = 224 ∧
    CmdWriteData.get_overhead = 32 ∧
    CmdWriteData.base_size = 8 + 4 + 2 + 1 ∧
    CmdWriteData.get_overhead ≠ CmdWriteData.base_size ∧
    open_fragment_size 256 ≠ 256 - CmdWriteData.base_size ∧
    CmdWriteData.serialized_len (open_fragment_size 256) = 239 ∧
    CmdWriteData.serialized_len (open_fragment_size 256) ≠ 256 := by
  decide

/-- Claim C9 amended: for every successful open, max_fragment_size is the
link's maximum frame size minus CmdWriteData::get_overhead, the in-memory
size of the CmdWriteData struct minus the in-memory header size (32 bytes on
the 64-bit targets this library builds for, counting the Vec that owns the
payload and the layout padding); a maximal fragment therefore serializes to
17 bytes less than the link maximum, always fitting within it without
exactly filling it. -/
theorem fragment_size_from_struct_overhead (m : Nat) (hm : 32 ≤ m) :
    open_fragment_size m = m - (CmdWriteData.size_of - Hdr.size_of) ∧
    open_fragment_size m = m - 32 ∧
    CmdWriteData.serialized_len (open_fragment_size m) = m - 17 ∧
    CmdWriteData.serialized_len (open_fragment_size m) ≤ m := by
  unfold open_fragment_size CmdWriteData.serialized_len
    CmdWriteData.get_overhead CmdWriteData.base_size CmdWriteData.size_of
    Hdr.size_of
  omega

theorem fragment_size_from_struct_overhead_witness :
    open_fragment_size 256 = 256 - (CmdWriteData.size_of - Hdr.size_of) ∧
    open_fragment_size 256 = 256 - 32 ∧
    CmdWriteData.serialized_len (open_fragment_size 256) = 256 - 17 ∧
    CmdWriteData.serialized_len (open_fragment_size 256) ≤ 256 :=
  fragment_size_from_struct_overhead 256 (by decide)

theorem extract_object_keys_length : ∀ (n : Nat) (l : List Nat),
    l.length = 4 * n →
    (extract_object_keys l).1.length = n ∧ (extract_object_keys l).2 = [] := by
  intro n
  induction n with
  | zero =>
    intro l hl
    cases l with
    | nil => exact ⟨rfl, rfl⟩
    | cons b t => simp only [List.length_cons] at hl; omega
  | succ m ihm =>
    intro l hl
    cases l with
    | nil => simp only [List.length_nil] at hl; omega
    | cons b0 t0 =>
      cases t0 with
      | nil => simp only [List.length_cons, List.length_nil] at hl; omega
      | cons b1 t1 =>
        cases t1 with
        | nil => simp only [List.length_cons, List.length_nil] at hl; omega
        | cons b2 t2 =>
          cases t2 with
          | nil => simp only [List.length_cons, List.length_nil] at hl; omega
          | cons b3 rest =>
            have hr : rest.length = 4 * m := by
              simp only [List.length_cons] at hl; omega
            obtain ⟨h1, h2⟩ := ihm rest hr
            exact ⟨by simp [extract_object_keys, h1],
              by simp [extract_object_keys, h2]⟩

/-- Claim C10: when the enumeration completes with a whole number of 4-byte
keys not exceeding the caller's capacity, the final copy into the caller's
key array is only defined when the number of returned keys equals the
capacity: with strictly fewer keys than capacity the copy_from_slice panics
(length mismatch) instead of returning a result code, and only with exactly
capacity keys does list_objects return a result. -/
theorem list_objects_copy_panics (capacity k : Nat)
    (script : List ReadResponse) (d : List Nat)
    (hdone : enumLoop script [] = .done d)
    (hlen : d.length = 4 * k) (hle : k ≤ capacity) :
    (k < capacity → list_objects capacity script = .panicked) ∧
    (k = capacity →
      list_objects capacity script = .ok (extract_object_keys d).1 k) := by
  obtain ⟨hk1, hk2⟩ := extract_object_keys_length k d hlen
  have hdiv : d.length / 4 = k := by omega
  constructor
  · intro hlt
    simp only [list_objects, hdone, hk1, hk2, hdiv, List.length_nil]
    rw [if_neg (by omega), if_neg (by omega), if_neg (by simp),
      if_neg (by omega)]
  · intro hk
    subst hk
    simp only [list_objects, hdone, hk1, hk2, hdiv, List.length_nil]
    rw [if_neg (by omega), if_neg (by omega), if_neg (by simp)]
    simp

theorem list_objects_copy_panics_witness :
    list_objects 2 [ReadResponse.data [1, 0, 0, 0] true] = .panicked :=
  (list_objects_copy_panics 2 1 [ReadResponse.data [1, 0, 0, 0] true]
    [1, 0, 0, 0] rfl rfl (by decide)).1 (by decide)
